import Mathlib

/-!
Shallow embedding of the `LLMEngine` inference-session engine of
bolt-llama-electron (`src/main/llm-engine.ts`) together with the IPC load
handler (`src/main/ipc-handlers.ts`), and proofs about the frozen claims.

Modelling conventions:
* JS `null`-able fields become `Option`; thrown exceptions become
  `Except String` results carrying the thrown message.
* The external `node-llama-cpp` runtime is an oracle parameter: the result
  of `session.prompt(fullPrompt, options)` is a function of the prompt and
  the options (`LLMOracle`), deterministic for a fixed model/sampling state.
* The fallible stages of `initialize` (`getLlama`, `loadModel`,
  `createContext`, session construction) are driven by a `LoadOutcome`
  parameter describing which external stage fails, if any.
* The cooperative cancellation flag `isCancelled` is set by `cancel()` at an
  arbitrary moment; within one generation it is reset at acceptance and is
  monotone afterwards, so its observable behaviour is captured by the index
  of the first cooperative checkpoint at which it reads true
  (`cancelArg : Option Nat`, `none` = never during this generation).
  The sync `generate` has a single post-prompt read, captured by a `Bool`.
* Numeric sampling parameters are floats in TS but the engine only moves
  them around (no arithmetic), so they are embedded as `Rat`.
* Wall-clock durations (`Date.now()` differences) are an `elapsed : Nat`
  parameter.
-/

deriving instance DecidableEq for Except

namespace BoltLlama

/-- The backtick character, written via its code point. -/
def backtick : Char := Char.ofNat 96

/-! ## Data model (`src/shared/types.ts`, `src/shared/constants.ts`) -/

/-- `LLMEngineConfig` of `src/shared/types.ts` as retained by the engine:
the constructor fills every field, so none is optional here. -/
structure LLMEngineConfig where
  modelPath : String
  gpuLayers : Nat
  contextSize : Nat
  batchSize : Nat
  temperature : Rat
  topP : Rat
  topK : Nat
deriving DecidableEq

/-- A partial configuration (TS `Partial<LLMEngineConfig>`). -/
structure PartialConfig where
  modelPath : Option String := none
  gpuLayers : Option Nat := none
  contextSize : Option Nat := none
  batchSize : Option Nat := none
  temperature : Option Rat := none
  topP : Option Rat := none
  topK : Option Nat := none
deriving DecidableEq

/-- A loaded `LlamaModel` handle, recording the load-time arguments. -/
structure ModelHandle where
  modelPath : String
  gpuLayers : Nat
deriving DecidableEq

/-- A `LlamaContext` handle, recording the allocation arguments
(`createContext({maxTokens: contextSize, batchSize})`). -/
structure ContextHandle where
  maxTokens : Nat
  batchSize : Nat
deriving DecidableEq

/-- A `LlamaChatSession` handle (opaque to the engine). -/
structure SessionHandle where
  mk' ::
deriving DecidableEq

/-- The mutable fields of the `LLMEngine` class. -/
structure EngineState where
  model : Option ModelHandle
  context : Option ContextHandle
  session : Option SessionHandle
  config : LLMEngineConfig
  isLoading : Bool
  isCancelled : Bool
deriving DecidableEq

/-- `GenerationRequest` of `src/shared/types.ts`. -/
structure GenerationRequest where
  prompt : String
  context : Option String := none
  model : Option String := none
  temperature : Option Rat := none
  maxTokens : Option Nat := none
  systemPrompt : Option String := none
deriving DecidableEq

/-- `GenerationResponse` of `src/shared/types.ts`; `generate` never sets
`language`. -/
structure GenerationResponse where
  code : String
  explanation : String
  tokens : Nat
  generationTime : Nat
  language : Option String := none
deriving DecidableEq

/-- The options object passed to `session.prompt`. -/
structure PromptOptions where
  temperature : Rat
  maxTokens : Nat
  topP : Rat
  topK : Nat
deriving DecidableEq

/-- The external model runtime: the value of `session.prompt(p, o)`,
either a response text or a thrown error message. -/
def LLMOracle : Type := String → PromptOptions → Except String String

/-- `StreamMessage` of `src/shared/types.ts`, restricted to the shapes the
engine actually constructs (tag plus the fields it populates). -/
inductive StreamMessage where
  | start (prompt : String)
  | chunk (data : String)
  | done (tokens : Nat) (generationTime : Nat) (totalLength : Nat)
  | error (msg : String)
deriving DecidableEq

/-! ### Constants (`src/shared/constants.ts`) -/

/-- The float `0.7`, as the reduced rational `7/10` (written via the `Rat`
constructor so that kernel evaluation of equality tests is possible). -/
def LLM_DEFAULTS_temperature : Rat := ⟨7, 10, by decide, by decide⟩

/-- The float `0.9`, as the reduced rational `9/10`. -/
def LLM_DEFAULTS_topP : Rat := ⟨9, 10, by decide, by decide⟩
def LLM_DEFAULTS_topK : Nat := 40
def LLM_DEFAULTS_maxTokens : Nat := 2048
def LLM_DEFAULTS_contextSize : Nat := 4096
def LLM_DEFAULTS_gpuLayers : Nat := 33

def SYSTEM_PROMPTS_codeGeneration : String :=
  "You are an expert web developer. When asked to generate code, provide clean, well-structured, and production-ready code. Include comments where necessary. Return only the code without any explanation unless specifically asked."

/-! ### Error messages thrown / emitted by the engine -/

def notInitializedMsg : String := "LLM engine not initialized. Call initialize() first."
def stillLoadingMsg : String := "Model is still loading. Please wait."
def cancelledMsg : String := "Generation cancelled by user"
def initFailMsg (e : String) : String := "Failed to initialize LLM engine: " ++ e
def generationFailMsg (e : String) : String := "Generation failed: " ++ e

/-! ## JS helper semantics -/

/-- JS `v || dflt` on an optional string: `undefined` and the empty string
are falsy, any other string is returned as-is. -/
def jsOrString (v : Option String) (dflt : String) : String :=
  match v with
  | some s => if s = "" then dflt else s
  | none => dflt

/-- Merge of `{ ...config, ...partial }` where the partial object omits
absent fields (TS `Partial`). -/
def mergeConfig (c : LLMEngineConfig) (p : PartialConfig) : LLMEngineConfig :=
  { modelPath := p.modelPath.getD c.modelPath
    gpuLayers := p.gpuLayers.getD c.gpuLayers
    contextSize := p.contextSize.getD c.contextSize
    batchSize := p.batchSize.getD c.batchSize
    temperature := p.temperature.getD c.temperature
    topP := p.topP.getD c.topP
    topK := p.topK.getD c.topK }

/-- The `LLMEngine` constructor: `modelPath` falls back through JS `||` to a
`HOME`-derived default, the other fields through `??` to the defaults. -/
def mkEngineConfig (home : String) (p : PartialConfig) : LLMEngineConfig :=
  { modelPath := jsOrString p.modelPath (home ++ "/.bolt-llama/models/model.gguf")
    gpuLayers := p.gpuLayers.getD LLM_DEFAULTS_gpuLayers
    contextSize := p.contextSize.getD LLM_DEFAULTS_contextSize
    batchSize := p.batchSize.getD 512
    temperature := p.temperature.getD LLM_DEFAULTS_temperature
    topP := p.topP.getD LLM_DEFAULTS_topP
    topK := p.topK.getD LLM_DEFAULTS_topK }

/-! ## Code-fence extraction

`generate` runs `generatedCode.match(/(three backticks)(?:\w+)?\n([\s\S]*?)\n(three backticks)/)`
and, when it matches, returns the first captured group as `code`.
The matcher below implements exactly that regex on the character list:
leftmost start position; after the opening fence an optional run of word
characters (its greedy backtracking can only succeed on the maximal run,
since every shorter split leaves a word character where `\n` is required);
then the lazy body group ends at the first `\n` followed by a closing
fence. -/

def isWordChar (c : Char) : Bool :=
  (decide (Char.ofNat 97 ≤ c) && decide (c ≤ Char.ofNat 122)) ||
  (decide (Char.ofNat 65 ≤ c) && decide (c ≤ Char.ofNat 90)) ||
  (decide (Char.ofNat 48 ≤ c) && decide (c ≤ Char.ofNat 57)) ||
  c == '_'

def startsWithFenceEnd (s : List Char) : Bool :=
  match s with
  | a :: b :: c :: d :: _ => a == '\n' && b == backtick && c == backtick && d == backtick
  | _ => false

/-- Lazy body group: the characters before the first newline-plus-closing-fence. -/
def fenceBody : List Char → Option (List Char)
  | [] => none
  | c :: cs =>
    if startsWithFenceEnd (c :: cs) then some []
    else (fenceBody cs).map (fun r => c :: r)

/-- Try to match the fence regex anchored at this position; returns the
captured inner group. -/
def matchFenceAt (s : List Char) : Option (List Char) :=
  match s with
  | a :: b :: c :: rest =>
    if a = backtick ∧ b = backtick ∧ c = backtick then
      match rest.dropWhile isWordChar with
      | '\n' :: body => fenceBody body
      | _ => none
    else none
  | _ => none

/-- Leftmost match of the fence regex. -/
def firstFence : List Char → Option (List Char)
  | [] => none
  | c :: cs =>
    match matchFenceAt (c :: cs) with
    | some body => some body
    | none => firstFence cs

/-- `codeMatch ? codeMatch[1] : generatedCode`. -/
def extractCode (s : String) : String :=
  match firstFence s.data with
  | some body => String.mk body
  | none => s

/-! ## Effective request parameters -/

/-- `request.systemPrompt || SYSTEM_PROMPTS.codeGeneration`, then
`fullPrompt` as built by both generation forms. -/
def fullPrompt (req : GenerationRequest) : String :=
  jsOrString req.systemPrompt SYSTEM_PROMPTS_codeGeneration ++ "\n\nUser: " ++ req.prompt

/-- The options object both generation forms pass to `session.prompt`:
request overrides via `??` for temperature and maxTokens, the config values
for topP and topK (the request type carries no topP/topK override). -/
def effectiveOptions (cfg : LLMEngineConfig) (req : GenerationRequest) : PromptOptions :=
  { temperature := req.temperature.getD cfg.temperature
    maxTokens := req.maxTokens.getD LLM_DEFAULTS_maxTokens
    topP := cfg.topP
    topK := cfg.topK }

/-! ## Model lifecycle (`initialize`, `updateConfig`, `unload`, queries) -/

/-- Which external stage of `initialize` fails, if any. -/
inductive LoadOutcome where
  | getLlamaFail (e : String)
  | loadModelFail (e : String)
  | contextFail (e : String)
  | sessionFail (e : String)
  | success
deriving DecidableEq

/-- `LLMEngine.initialize`: early-returns when `this.model` is set; otherwise
sets `isLoading`, runs the fallible stages and, in the `catch`, clears
`isLoading` and rethrows the wrapped message.  The `catch` performs no other
rollback, so fields assigned before the failing stage keep their values. -/
def initEngine (st : EngineState) (outcome : LoadOutcome) :
    Except String Unit × EngineState :=
  if st.model.isSome then (Except.ok (), st)
  else
    match outcome with
    | LoadOutcome.getLlamaFail e =>
        (Except.error (initFailMsg e), { st with isLoading := false })
    | LoadOutcome.loadModelFail e =>
        (Except.error (initFailMsg e), { st with isLoading := false })
    | LoadOutcome.contextFail e =>
        (Except.error (initFailMsg e),
         { st with model := some ⟨st.config.modelPath, st.config.gpuLayers⟩
                   isLoading := false })
    | LoadOutcome.sessionFail e =>
        (Except.error (initFailMsg e),
         { st with model := some ⟨st.config.modelPath, st.config.gpuLayers⟩
                   context := some ⟨st.config.contextSize, st.config.batchSize⟩
                   isLoading := false })
    | LoadOutcome.success =>
        (Except.ok (),
         { st with model := some ⟨st.config.modelPath, st.config.gpuLayers⟩
                   context := some ⟨st.config.contextSize, st.config.batchSize⟩
                   session := some ⟨⟩
                   isLoading := false })

/-- `LLMEngine.updateConfig`: `this.config = { ...this.config, ...config }`. -/
def updateConfig (st : EngineState) (p : PartialConfig) : EngineState :=
  { st with config := mergeConfig st.config p }

/-- `LLMEngine.cancel`: sets the shared cancellation flag. -/
def cancel (st : EngineState) : EngineState :=
  { st with isCancelled := true }

/-- `LLMEngine.isModelLoaded`. -/
def isModelLoaded (st : EngineState) : Bool :=
  st.model.isSome && st.context.isSome && st.session.isSome

/-- A disposal call performed by `unload`, in call order. -/
inductive DisposeStep where
  | context
  | model
deriving DecidableEq

/-- The `try` block of `LLMEngine.unload`: dispose the context (nulling it
only after the `await` returns), then the model, then clear the session.
A thrown disposal error aborts the block with the state as mutated so far.
The second component records the disposal calls actually made, in order. -/
def unloadTry (st : EngineState) (ctxDispose modelDispose : Except String Unit) :
    Except (String × EngineState) EngineState × List DisposeStep :=
  match st.context with
  | some _ =>
    match ctxDispose with
    | Except.error e => (Except.error (e, st), [DisposeStep.context])
    | Except.ok _ =>
      let st1 := { st with context := none }
      match st.model with
      | some _ =>
        match modelDispose with
        | Except.error e => (Except.error (e, st1), [DisposeStep.context, DisposeStep.model])
        | Except.ok _ =>
            (Except.ok { st1 with model := none, session := none },
             [DisposeStep.context, DisposeStep.model])
      | none => (Except.ok { st1 with session := none }, [DisposeStep.context])
  | none =>
    match st.model with
    | some _ =>
      match modelDispose with
      | Except.error e => (Except.error (e, st), [DisposeStep.model])
      | Except.ok _ =>
          (Except.ok { st with model := none, session := none }, [DisposeStep.model])
    | none => (Except.ok { st with session := none }, [])

/-- `LLMEngine.unload`: wraps the `try` block in a `catch` that logs the
disposal error and swallows it. -/
def unload (st : EngineState) (ctxDispose modelDispose : Except String Unit) :
    Except String EngineState × List DisposeStep :=
  match unloadTry st ctxDispose modelDispose with
  | (Except.ok st2, tr) => (Except.ok st2, tr)
  | (Except.error (_, st2), tr) => (Except.ok st2, tr)

/-! ## Generation (`generate`, `generateStream`) -/

/-- `LLMEngine.generate`.  `cancelDuringPrompt` is the value the shared
cancellation flag has when the awaited `session.prompt` resolves (it was
reset to `false` at acceptance and can only have been set by a concurrent
`cancel()`); the `catch` turns a prompt failure into the cancellation error
when that flag is set, and into the wrapped generation error otherwise.
The line count `code.split('\n').length` of the explanation is embedded as
the newline count plus one, which is what JS split-by-separator yields. -/
def generate (st : EngineState) (req : GenerationRequest) (llm : LLMOracle)
    (cancelDuringPrompt : Bool) (elapsed : Nat) :
    Except String GenerationResponse × EngineState :=
  if st.session.isNone then (Except.error notInitializedMsg, st)
  else if st.isLoading then (Except.error stillLoadingMsg, st)
  else
    let st1 := { st with isCancelled := cancelDuringPrompt }
    match llm (fullPrompt req) (effectiveOptions st.config req) with
    | Except.ok r =>
        let code := extractCode r
        (Except.ok
          { code := code
            explanation := "Generated " ++ toString (code.data.count '\n' + 1)
              ++ " lines of code in " ++ toString elapsed ++ "ms"
            tokens := (r.length + 3) / 4
            generationTime := elapsed
            language := none }, st1)
    | Except.error e =>
        if cancelDuringPrompt then (Except.error cancelledMsg, st1)
        else (Except.error (generationFailMsg e), st1)

/-- Whether the monotone cancellation flag reads true at cooperative
checkpoint `k`, when its first true reading is at checkpoint `cancelArg`. -/
def cancelledAt (cancelArg : Option Nat) (k : Nat) : Bool :=
  match cancelArg with
  | some c => decide (c ≤ k)
  | none => false

/-- The chunking loop of `generateStream`
(`for (let i = 0; i < len; i += 50)`): before each chunk the cancellation
flag is checked; a set flag yields the terminal cancellation error event,
otherwise the next 50-character chunk is emitted; a completed loop ends in
the `end` event.  The fuel argument only bounds the iteration count; every
caller passes `body.length`, which always suffices since each iteration
drops at least one character. -/
def chunkLoop : Nat → List Char → Nat → Option Nat → Nat → Nat → Nat → List StreamMessage
  | _, [], _, _, tok, tm, tot => [StreamMessage.done tok tm tot]
  | 0, _ :: _, _, _, _, _, _ => []
  | fuel + 1, c :: cs, k, cancelArg, tok, tm, tot =>
    if cancelledAt cancelArg k then [StreamMessage.error cancelledMsg]
    else
      StreamMessage.chunk (String.mk ((c :: cs).take 50)) ::
        chunkLoop fuel ((c :: cs).drop 50) (k + 1) cancelArg tok tm tot

/-- The event tail of a successful prompt in `generateStream`: chunks of the
response followed by the terminal event. -/
def streamBody (body : List Char) (cancelArg : Option Nat) (tok tm tot : Nat) :
    List StreamMessage :=
  chunkLoop body.length body 0 cancelArg tok tm tot

/-- `LLMEngine.generateStream`, as the finite list of events one call emits
together with the engine state afterwards.  `cancelArg` is the index of the
first chunk checkpoint at which the cancellation flag reads true (`none` if
`cancel()` does not land during this generation); since the flag is also
what the `catch` block reads right after the failed `await` (the same moment
as checkpoint 0), the `catch` sees it set exactly when `cancelArg = some 0`,
and in that case it yields nothing. -/
def generateStream (st : EngineState) (req : GenerationRequest) (llm : LLMOracle)
    (cancelArg : Option Nat) (elapsed : Nat) :
    List StreamMessage × EngineState :=
  if st.session.isNone then ([StreamMessage.error notInitializedMsg], st)
  else if st.isLoading then ([StreamMessage.error stillLoadingMsg], st)
  else
    let st1 := { st with isCancelled := cancelArg.isSome }
    match llm (fullPrompt req) (effectiveOptions st.config req) with
    | Except.ok r =>
        (StreamMessage.start req.prompt ::
           streamBody r.data cancelArg ((r.length + 3) / 4) elapsed r.length, st1)
    | Except.error e =>
        if cancelledAt cancelArg 0 then ([StreamMessage.start req.prompt], st1)
        else ([StreamMessage.start req.prompt,
               StreamMessage.error (generationFailMsg e)], st1)

/-! ## IPC load handler (`IPCHandler.handleLoadModel`) -/

structure LoadModelResponse where
  success : Bool
  message : String
deriving DecidableEq

/-- `handleLoadModel`: merges the requested path into the retained config
via `updateConfig`, then calls `initialize` and reports a structured
result. -/
def handleLoadModel (st : EngineState) (modelPath : String) (outcome : LoadOutcome) :
    LoadModelResponse × EngineState :=
  let st1 := updateConfig st { modelPath := some modelPath }
  match initEngine st1 outcome with
  | (Except.ok _, st2) => ({ success := true, message := "Model loaded successfully" }, st2)
  | (Except.error e, st2) =>
      ({ success := false, message := "Failed to load model: " ++ e }, st2)

/-! ## Observations on event sequences -/

/-- The payloads of the `chunk` events, in emission order. -/
def chunkPayloads (evs : List StreamMessage) : List String :=
  evs.filterMap fun e =>
    match e with
    | StreamMessage.chunk s => some s
    | _ => none

/-- Concatenation of a list of strings. -/
def strConcat (l : List String) : String := l.foldr (fun a b => a ++ b) ""

/-- Concatenation of all `chunk` payloads of an event sequence. -/
def concatChunks (evs : List StreamMessage) : String := strConcat (chunkPayloads evs)

/-- Sum of the lengths of the `chunk` payloads. -/
def sumChunkLens (evs : List StreamMessage) : Nat :=
  ((chunkPayloads evs).map String.length).sum

/-- Number of `error` events in a sequence. -/
def countErrors (evs : List StreamMessage) : Nat :=
  (evs.filter fun e =>
    match e with
    | StreamMessage.error _ => true
    | _ => false).length

/-! ## Basic string and concatenation lemmas -/

theorem string_data_append (a b : String) : (a ++ b).data = a.data ++ b.data := rfl

theorem string_data_mk (l : List Char) : (String.mk l).data = l := rfl

theorem sum_lengths_eq (l : List String) :
    (l.map String.length).sum = (strConcat l).data.length := by
  induction l with
  | nil => rfl
  | cons a t ih =>
      have h : strConcat (a :: t) = a ++ strConcat t := rfl
      rw [List.map_cons, List.sum_cons, h, string_data_append, List.length_append, ih]
      rfl

/-! ## Shape lemmas for the chunking loop -/

/-- Without cancellation the loop emits the 50-character chunks of the body,
whose concatenation is the body, followed by the `end` event. -/
theorem chunkLoop_none :
    ∀ (fuel : Nat) (body : List Char) (k tok tm tot : Nat),
      body.length ≤ fuel →
      ∃ cs : List String,
        chunkLoop fuel body k none tok tm tot
          = cs.map StreamMessage.chunk ++ [StreamMessage.done tok tm tot]
        ∧ (strConcat cs).data = body := by
  intro fuel
  induction fuel with
  | zero =>
      intro body k tok tm tot h
      cases body with
      | nil => exact ⟨[], by simp [chunkLoop], rfl⟩
      | cons a as => simp at h
  | succ n ih =>
      intro body k tok tm tot h
      cases body with
      | nil => exact ⟨[], by simp [chunkLoop], rfl⟩
      | cons a as =>
          have hlen : ((a :: as).drop 50).length ≤ n := by
            simp only [List.length_drop, List.length_cons] at *
            omega
          obtain ⟨cs, heq, hcat⟩ := ih ((a :: as).drop 50) (k + 1) tok tm tot hlen
          refine ⟨String.mk ((a :: as).take 50) :: cs, ?_, ?_⟩
          · simp [chunkLoop, cancelledAt]
            simpa using heq
          · have h2 : (strConcat (String.mk ((a :: as).take 50) :: cs)).data
                = (a :: as).take 50 ++ (strConcat cs).data := by
              have h3 : strConcat (String.mk ((a :: as).take 50) :: cs)
                  = String.mk ((a :: as).take 50) ++ strConcat cs := rfl
              rw [h3, string_data_append, string_data_mk]
            rw [h2, hcat, List.take_append_drop]

/-- If the cancellation flag first reads true at checkpoint `c` and chunk
`c - k` exists, the loop emits exactly the first `c - k` chunks and then the
single terminal cancellation error. -/
theorem chunkLoop_cancelled :
    ∀ (fuel : Nat) (body : List Char) (k c tok tm tot : Nat),
      body.length ≤ fuel → k ≤ c → 50 * (c - k) < body.length →
      ∃ cs : List String,
        chunkLoop fuel body k (some c) tok tm tot
          = cs.map StreamMessage.chunk ++ [StreamMessage.error cancelledMsg]
        ∧ cs.length = c - k
        ∧ (strConcat cs).data = body.take (50 * (c - k)) := by
  intro fuel
  induction fuel with
  | zero =>
      intro body k c tok tm tot h hk hlt
      cases body with
      | nil => simp only [List.length_nil] at hlt; omega
      | cons a as => simp at h
  | succ n ih =>
      intro body k c tok tm tot h hk hlt
      cases body with
      | nil => simp only [List.length_nil] at hlt; omega
      | cons a as =>
          by_cases hkc : c ≤ k
          · have hck : c - k = 0 := by omega
            refine ⟨[], ?_, by simp [hck], ?_⟩
            · simp [chunkLoop, cancelledAt, hkc]
            · rw [hck]
              simp [strConcat]
          · have hk1 : k + 1 ≤ c := by omega
            have hdec : 50 * (c - k) = 50 + 50 * (c - (k + 1)) := by omega
            have hlen : ((a :: as).drop 50).length ≤ n := by
              simp only [List.length_drop, List.length_cons] at *
              omega
            have hlt' : 50 * (c - (k + 1)) < ((a :: as).drop 50).length := by
              simp only [List.length_drop, List.length_cons] at *
              omega
            obtain ⟨cs, heq, hlenc, hcat⟩ := ih ((a :: as).drop 50) (k + 1) c tok tm tot hlen hk1 hlt'
            refine ⟨String.mk ((a :: as).take 50) :: cs, ?_, ?_, ?_⟩
            · simp [chunkLoop, cancelledAt, hkc]
              simpa using heq
            · simp only [List.length_cons, hlenc]; omega
            · have h2 : (strConcat (String.mk ((a :: as).take 50) :: cs)).data
                  = (a :: as).take 50 ++ (strConcat cs).data := by
                have h3 : strConcat (String.mk ((a :: as).take 50) :: cs)
                    = String.mk ((a :: as).take 50) ++ strConcat cs := rfl
                rw [h3, string_data_append, string_data_mk]
              rw [h2, hcat, hdec, List.take_add]

/-- If the cancellation flag only turns true at or beyond the number of
chunks, the loop completes normally: all chunks followed by the `end` event
(the documented race in which cancellation arrives too late). -/
theorem chunkLoop_raced :
    ∀ (fuel : Nat) (body : List Char) (k c tok tm tot : Nat),
      body.length ≤ fuel → body.length ≤ 50 * (c - k) →
      ∃ cs : List String,
        chunkLoop fuel body k (some c) tok tm tot
          = cs.map StreamMessage.chunk ++ [StreamMessage.done tok tm tot]
        ∧ (strConcat cs).data = body := by
  intro fuel
  induction fuel with
  | zero =>
      intro body k c tok tm tot h hge
      cases body with
      | nil => exact ⟨[], by simp [chunkLoop], rfl⟩
      | cons a as => simp at h
  | succ n ih =>
      intro body k c tok tm tot h hge
      cases body with
      | nil => exact ⟨[], by simp [chunkLoop], rfl⟩
      | cons a as =>
          have hkc : ¬ c ≤ k := by
            intro hc
            have h0 : c - k = 0 := by omega
            rw [h0, Nat.mul_zero] at hge
            simp only [List.length_cons, Nat.le_zero] at hge
            omega
          have hlen : ((a :: as).drop 50).length ≤ n := by
            simp only [List.length_drop, List.length_cons] at *
            omega
          have hge' : ((a :: as).drop 50).length ≤ 50 * (c - (k + 1)) := by
            simp only [List.length_drop, List.length_cons] at *
            omega
          obtain ⟨cs, heq, hcat⟩ := ih ((a :: as).drop 50) (k + 1) c tok tm tot hlen hge'
          refine ⟨String.mk ((a :: as).take 50) :: cs, ?_, ?_⟩
          · simp [chunkLoop, cancelledAt, hkc]
            simpa using heq
          · have h2 : (strConcat (String.mk ((a :: as).take 50) :: cs)).data
                = (a :: as).take 50 ++ (strConcat cs).data := by
              have h3 : strConcat (String.mk ((a :: as).take 50) :: cs)
                  = String.mk ((a :: as).take 50) ++ strConcat cs := rfl
              rw [h3, string_data_append, string_data_mk]
            rw [h2, hcat, List.take_append_drop]

/-- Every run of the loop is a block of chunks followed by exactly one
terminal event (`end` or the cancellation error). -/
theorem chunkLoop_shape :
    ∀ (fuel : Nat) (body : List Char) (k : Nat) (cancelArg : Option Nat) (tok tm tot : Nat),
      body.length ≤ fuel →
      ∃ cs : List String,
        chunkLoop fuel body k cancelArg tok tm tot
          = cs.map StreamMessage.chunk ++ [StreamMessage.error cancelledMsg]
        ∨ chunkLoop fuel body k cancelArg tok tm tot
          = cs.map StreamMessage.chunk ++ [StreamMessage.done tok tm tot] := by
  intro fuel
  induction fuel with
  | zero =>
      intro body k cancelArg tok tm tot h
      cases body with
      | nil => exact ⟨[], Or.inr (by simp [chunkLoop])⟩
      | cons a as => simp at h
  | succ n ih =>
      intro body k cancelArg tok tm tot h
      cases body with
      | nil => exact ⟨[], Or.inr (by simp [chunkLoop])⟩
      | cons a as =>
          by_cases hc : cancelledAt cancelArg k = true
          · exact ⟨[], Or.inl (by simp [chunkLoop, hc])⟩
          · have hlen : ((a :: as).drop 50).length ≤ n := by
              simp only [List.length_drop, List.length_cons] at *
              omega
            obtain ⟨cs, hcs⟩ := ih ((a :: as).drop 50) (k + 1) cancelArg tok tm tot hlen
            refine ⟨String.mk ((a :: as).take 50) :: cs, ?_⟩
            rcases hcs with heq | heq
            · exact Or.inl (by simp [chunkLoop, hc]; simpa using heq)
            · exact Or.inr (by simp [chunkLoop, hc]; simpa using heq)

/-! ## Concrete fixtures used by witnesses and counterexamples -/

/-- A concrete retained configuration. -/
def cfg0 : LLMEngineConfig :=
  { modelPath := "/models/a.gguf", gpuLayers := 33, contextSize := 4096,
    batchSize := 512, temperature := LLM_DEFAULTS_temperature,
    topP := LLM_DEFAULTS_topP, topK := 40 }

/-- The engine before any `initialize`. -/
def unloadedSt : EngineState :=
  { model := none, context := none, session := none, config := cfg0,
    isLoading := false, isCancelled := false }

/-- The engine right after a successful `initialize` — which is also exactly
its observable state while a generation is in flight (generation sets no
in-flight marker; it only resets `isCancelled` at acceptance). -/
def readySt : EngineState :=
  { unloadedSt with model := some ⟨"/models/a.gguf", 33⟩,
                    context := some ⟨4096, 512⟩, session := some ⟨⟩ }

/-- An oracle whose model always answers `r`. -/
def okOracle (r : String) : LLMOracle := fun _ _ => Except.ok r

/-- An oracle whose model call always throws `e`. -/
def failOracle (e : String) : LLMOracle := fun _ _ => Except.error e

/-! ## Helper lemmas shared by the claim proofs -/

theorem string_length_data (s : String) : s.length = s.data.length := rfl

theorem chunkPayloads_nil : chunkPayloads [] = [] := rfl

theorem chunkPayloads_start (p : String) (l : List StreamMessage) :
    chunkPayloads (StreamMessage.start p :: l) = chunkPayloads l := by
  simp [chunkPayloads]

theorem chunkPayloads_chunk (s : String) (l : List StreamMessage) :
    chunkPayloads (StreamMessage.chunk s :: l) = s :: chunkPayloads l := by
  simp [chunkPayloads]

theorem chunkPayloads_done (a b c : Nat) (l : List StreamMessage) :
    chunkPayloads (StreamMessage.done a b c :: l) = chunkPayloads l := by
  simp [chunkPayloads]

theorem chunkPayloads_error (m : String) (l : List StreamMessage) :
    chunkPayloads (StreamMessage.error m :: l) = chunkPayloads l := by
  simp [chunkPayloads]

theorem chunkPayloads_chunks (cs : List String) (tail : List StreamMessage) :
    chunkPayloads (cs.map StreamMessage.chunk ++ tail) = cs ++ chunkPayloads tail := by
  induction cs with
  | nil => rfl
  | cons a t ih =>
      rw [List.map_cons, List.cons_append, chunkPayloads_chunk, ih, List.cons_append]

theorem countErrors_nil : countErrors [] = 0 := rfl

theorem countErrors_start (p : String) (l : List StreamMessage) :
    countErrors (StreamMessage.start p :: l) = countErrors l := by
  simp [countErrors]

theorem countErrors_chunk (s : String) (l : List StreamMessage) :
    countErrors (StreamMessage.chunk s :: l) = countErrors l := by
  simp [countErrors]

theorem countErrors_error (m : String) (l : List StreamMessage) :
    countErrors (StreamMessage.error m :: l) = countErrors l + 1 := by
  simp [countErrors]

theorem countErrors_chunks (cs : List String) (tail : List StreamMessage) :
    countErrors (cs.map StreamMessage.chunk ++ tail) = countErrors tail := by
  induction cs with
  | nil => rfl
  | cons a t ih => rw [List.map_cons, List.cons_append, countErrors_chunk, ih]

/-- Reduction of `generate` in a ready state whose prompt succeeds. -/
theorem generate_ok (st : EngineState) (req : GenerationRequest) (llm : LLMOracle)
    (cd : Bool) (elapsed : Nat) (r : String)
    (h1 : st.session.isSome = true) (h2 : st.isLoading = false)
    (hok : llm (fullPrompt req) (effectiveOptions st.config req) = Except.ok r) :
    generate st req llm cd elapsed
      = (Except.ok
          { code := extractCode r
            explanation := "Generated " ++ toString ((extractCode r).data.count '\n' + 1)
              ++ " lines of code in " ++ toString elapsed ++ "ms"
            tokens := (r.length + 3) / 4
            generationTime := elapsed
            language := none },
         { st with isCancelled := cd }) := by
  rcases hs : st.session with _ | s
  · rw [hs] at h1
    simp at h1
  · simp [generate, hs, h2, hok]

/-- Reduction of `generateStream` in a ready state whose prompt succeeds. -/
theorem generateStream_ok (st : EngineState) (req : GenerationRequest) (llm : LLMOracle)
    (cancelArg : Option Nat) (elapsed : Nat) (r : String)
    (h1 : st.session.isSome = true) (h2 : st.isLoading = false)
    (hok : llm (fullPrompt req) (effectiveOptions st.config req) = Except.ok r) :
    (generateStream st req llm cancelArg elapsed).1
      = StreamMessage.start req.prompt ::
          streamBody r.data cancelArg ((r.length + 3) / 4) elapsed r.length := by
  rcases hs : st.session with _ | s
  · rw [hs] at h1
    simp at h1
  · simp [generateStream, hs, h2, hok]

/-! ## Claims -/

/-- C6: for every request, calling `generate` with no session present (the
engine's state when no model has ever been initialized) fails with the
not-initialized error — the code's rendering of `NotLoadedError` — leaves
the state exactly unchanged, and performs no model work: for every oracle,
cancellation environment and clock, the result is the same constant that
never consults the model. -/
theorem C6_generate_unloaded (st : EngineState) (req : GenerationRequest)
    (llm : LLMOracle) (cancelDuringPrompt : Bool) (elapsed : Nat)
    (h : st.session = none) :
    generate st req llm cancelDuringPrompt elapsed
      = (Except.error notInitializedMsg, st) := by
  simp [generate, h]

/-- C6 witness: the concrete unloaded engine rejects a generate call and is
left untouched. -/
theorem C6_witness :
    generate unloadedSt { prompt := "hi" } (okOracle "abc") false 7
      = (Except.error notInitializedMsg, unloadedSt) :=
  C6_generate_unloaded unloadedSt { prompt := "hi" } (okOracle "abc") false 7 rfl

/-- C7: from an engine with no model, a successful `initialize` loads exactly
one model (recorded with the configured path and gpu layers), and a second
`initialize` without an intervening unload — whatever its environment would
have done — returns successfully with the state exactly unchanged: a no-op,
no reload. -/
theorem C7_init_idempotent (st : EngineState) (o2 : LoadOutcome)
    (h : st.model = none) :
    initEngine (initEngine st LoadOutcome.success).2 o2
        = (Except.ok (), (initEngine st LoadOutcome.success).2)
      ∧ (initEngine st LoadOutcome.success).2.model
        = some ⟨st.config.modelPath, st.config.gpuLayers⟩ := by
  constructor
  · simp [initEngine, h]
  · simp [initEngine, h]

/-- C7 witness: two `initialize` calls in a row on the concrete engine, the
second in an environment that would fail the load were it attempted. -/
theorem C7_witness :
    initEngine (initEngine unloadedSt LoadOutcome.success).2 (LoadOutcome.loadModelFail "x")
        = (Except.ok (), (initEngine unloadedSt LoadOutcome.success).2)
      ∧ (initEngine unloadedSt LoadOutcome.success).2.model
        = some ⟨"/models/a.gguf", 33⟩ :=
  C7_init_idempotent unloadedSt (LoadOutcome.loadModelFail "x") rfl

/-- C9: `unload` never throws, for every state and every disposal outcome;
when nothing is loaded it is a no-op returning the state unchanged and
performing no disposal call; when context and model are present and both
disposals succeed, it disposes the context first and the model second and
clears model, context and session; and a throwing disposal is swallowed
(still an `ok` result) rather than propagated. -/
theorem C9_unload_total (st : EngineState) (ctxDispose modelDispose : Except String Unit) :
    ((unload st ctxDispose modelDispose).1.isOk = true)
    ∧ (st.model = none → st.context = none → st.session = none →
        unload st ctxDispose modelDispose = (Except.ok st, []))
    ∧ (st.context.isSome = true → st.model.isSome = true →
        ctxDispose = Except.ok () → modelDispose = Except.ok () →
        unload st ctxDispose modelDispose
          = (Except.ok { st with model := none, context := none, session := none },
             [DisposeStep.context, DisposeStep.model])) := by
  refine ⟨?_, ?_, ?_⟩
  · rcases hc : st.context with _ | c <;> rcases hm : st.model with _ | m <;>
      rcases ctxDispose with e1 | u1 <;> rcases modelDispose with e2 | u2 <;>
        simp [unload, unloadTry, hc, hm, Except.isOk, Except.toBool]
  · intro h1 h2 h3
    cases st
    simp_all [unload, unloadTry]
  · intro h1 h2 h3 h4
    rcases Option.isSome_iff_exists.mp h1 with ⟨c, hc⟩
    rcases Option.isSome_iff_exists.mp h2 with ⟨m, hm⟩
    subst h3
    subst h4
    simp [unload, unloadTry, hc, hm]

/-- C9 witness: the fully loaded concrete engine with succeeding disposals,
instantiating all three conjuncts. -/
theorem C9_witness :
    ((unload readySt (Except.ok ()) (Except.ok ())).1.isOk = true)
    ∧ (readySt.model = none → readySt.context = none → readySt.session = none →
        unload readySt (Except.ok ()) (Except.ok ()) = (Except.ok readySt, []))
    ∧ (readySt.context.isSome = true → readySt.model.isSome = true →
        (Except.ok () : Except String Unit) = Except.ok () →
        (Except.ok () : Except String Unit) = Except.ok () →
        unload readySt (Except.ok ()) (Except.ok ())
          = (Except.ok { readySt with model := none, context := none, session := none },
             [DisposeStep.context, DisposeStep.model])) :=
  C9_unload_total readySt (Except.ok ()) (Except.ok ())

/-- C10: with a model already loaded, a Load request for a different path
reports success with the message 'Model loaded successfully' while model,
context and session stay exactly as they were: only the retained config's
modelPath is merged (whatever the load environment would have done).  The
final conjunct shows the merged path taking effect only on a later load
from an unloaded state. -/
theorem C10_load_while_loaded (st : EngineState) (newPath : String)
    (outcome : LoadOutcome) (m : ModelHandle)
    (h : st.model = some m) (hne : newPath ≠ st.config.modelPath) :
    handleLoadModel st newPath outcome
      = ({ success := true, message := "Model loaded successfully" },
         { st with config := { st.config with modelPath := newPath } })
    ∧ (initEngine { st with model := none, context := none, session := none,
                            config := { st.config with modelPath := newPath } }
         LoadOutcome.success).2.model = some ⟨newPath, st.config.gpuLayers⟩ := by
  constructor
  · simp [handleLoadModel, updateConfig, mergeConfig, initEngine, h]
  · simp [initEngine]

/-- C10 witness: loading a different path over the concrete loaded engine,
in an environment where actually loading that path would fail — success is
reported regardless, and only the config changes. -/
theorem C10_witness :
    handleLoadModel readySt "/models/b.gguf" (LoadOutcome.loadModelFail "zz")
      = ({ success := true, message := "Model loaded successfully" },
         { readySt with config := { readySt.config with modelPath := "/models/b.gguf" } })
    ∧ (initEngine { readySt with model := none, context := none, session := none,
                                 config := { readySt.config with modelPath := "/models/b.gguf" } }
         LoadOutcome.success).2.model = some ⟨"/models/b.gguf", 33⟩ :=
  C10_load_while_loaded readySt "/models/b.gguf" (LoadOutcome.loadModelFail "zz")
    ⟨"/models/a.gguf", 33⟩ rfl (by decide)

/-- C2 counterexample: a context-allocation failure during `initialize` on
the unloaded engine fails with the ModelLoadError message, as claimed — but
partial state IS retained: the freshly loaded model handle stays set, so the
resulting state is not the unloaded state the call started from. -/
theorem C2_counterexample :
    (initEngine unloadedSt (LoadOutcome.contextFail "out of memory")).1
        = Except.error (initFailMsg "out of memory")
      ∧ (initEngine unloadedSt (LoadOutcome.contextFail "out of memory")).2 ≠ unloadedSt
      ∧ (initEngine unloadedSt (LoadOutcome.contextFail "out of memory")).2.model
        = some ⟨"/models/a.gguf", 33⟩ := by
  exact ⟨rfl, by decide, rfl⟩

/-- C2 amended: every failing `initialize` fails with the ModelLoadError
message and ends with the loading flag cleared, but rollback is not atomic:
a failure at or before the model load leaves the state exactly unchanged,
a context-allocation failure retains the freshly loaded model handle, and a
session-creation failure retains both the model and the context. -/
theorem C2_init_failure (st : EngineState) (e : String)
    (h : st.model = none) (h2 : st.isLoading = false) :
    initEngine st (LoadOutcome.getLlamaFail e) = (Except.error (initFailMsg e), st)
    ∧ initEngine st (LoadOutcome.loadModelFail e) = (Except.error (initFailMsg e), st)
    ∧ initEngine st (LoadOutcome.contextFail e)
      = (Except.error (initFailMsg e),
         { st with model := some ⟨st.config.modelPath, st.config.gpuLayers⟩ })
    ∧ initEngine st (LoadOutcome.sessionFail e)
      = (Except.error (initFailMsg e),
         { st with model := some ⟨st.config.modelPath, st.config.gpuLayers⟩
                   context := some ⟨st.config.contextSize, st.config.batchSize⟩ }) := by
  cases st
  simp_all [initEngine]

/-- C2 witness: the four failure stages on the concrete unloaded engine. -/
theorem C2_witness :
    initEngine unloadedSt (LoadOutcome.getLlamaFail "ex")
        = (Except.error (initFailMsg "ex"), unloadedSt)
    ∧ initEngine unloadedSt (LoadOutcome.loadModelFail "ex")
        = (Except.error (initFailMsg "ex"), unloadedSt)
    ∧ initEngine unloadedSt (LoadOutcome.contextFail "ex")
        = (Except.error (initFailMsg "ex"),
           { unloadedSt with model := some ⟨"/models/a.gguf", 33⟩ })
    ∧ initEngine unloadedSt (LoadOutcome.sessionFail "ex")
        = (Except.error (initFailMsg "ex"),
           { unloadedSt with model := some ⟨"/models/a.gguf", 33⟩
                             context := some ⟨4096, 512⟩ }) :=
  C2_init_failure unloadedSt "ex" rfl rfl

/-- C8 counterexample: a present-but-empty systemPrompt is replaced by the
default system instruction (JS `||` treats the empty string as falsy), so
the effective prompt is not the concatenation of the request's system
instruction with the user prompt, contradicting the claim for this input. -/
theorem C8_counterexample :
    fullPrompt { prompt := "hi", systemPrompt := some "" }
        ≠ "" ++ "\n\nUser: " ++ "hi"
      ∧ fullPrompt { prompt := "hi", systemPrompt := some "" }
        = SYSTEM_PROMPTS_codeGeneration ++ "\n\nUser: " ++ "hi" :=
  ⟨by decide, rfl⟩

/-- C8 amended: the effective prompt concatenates the system instruction —
the request's systemPrompt when present AND non-empty, otherwise the default
— with the user prompt; the effective temperature and max-token count are
the request's overrides when present, falling back to the session's
configured temperature and to the global default 2048; top-p and top-k admit
no per-call override and always equal the session's configured values; and
`generate` consults the model only at exactly this prompt and these options
(two oracles agreeing there produce identical calls). -/
theorem C8_effective_params (cfg : LLMEngineConfig) (req : GenerationRequest) :
    (∀ s, req.systemPrompt = some s → s ≠ "" →
        fullPrompt req = s ++ "\n\nUser: " ++ req.prompt)
    ∧ (req.systemPrompt = none →
        fullPrompt req = SYSTEM_PROMPTS_codeGeneration ++ "\n\nUser: " ++ req.prompt)
    ∧ (req.systemPrompt = some "" →
        fullPrompt req = SYSTEM_PROMPTS_codeGeneration ++ "\n\nUser: " ++ req.prompt)
    ∧ (∀ t, req.temperature = some t → (effectiveOptions cfg req).temperature = t)
    ∧ (req.temperature = none → (effectiveOptions cfg req).temperature = cfg.temperature)
    ∧ (∀ mt, req.maxTokens = some mt → (effectiveOptions cfg req).maxTokens = mt)
    ∧ (req.maxTokens = none → (effectiveOptions cfg req).maxTokens = LLM_DEFAULTS_maxTokens)
    ∧ (effectiveOptions cfg req).topP = cfg.topP
    ∧ (effectiveOptions cfg req).topK = cfg.topK
    ∧ (∀ (llm1 llm2 : LLMOracle) (st : EngineState) (cd : Bool) (elapsed : Nat),
        st.config = cfg →
        llm1 (fullPrompt req) (effectiveOptions cfg req)
          = llm2 (fullPrompt req) (effectiveOptions cfg req) →
        generate st req llm1 cd elapsed = generate st req llm2 cd elapsed) := by
  refine ⟨?_, ?_, ?_, ?_, ?_, ?_, ?_, rfl, rfl, ?_⟩
  · intro s hs hne
    simp [fullPrompt, jsOrString, hs, hne]
  · intro hs
    simp [fullPrompt, jsOrString, hs]
  · intro hs
    simp [fullPrompt, jsOrString, hs]
  · intro t ht
    simp [effectiveOptions, ht]
  · intro ht
    simp [effectiveOptions, ht]
  · intro mt hmt
    simp [effectiveOptions, hmt]
  · intro hmt
    simp [effectiveOptions, hmt]
  · intro llm1 llm2 st cd elapsed hcfg heq
    subst hcfg
    simp only [generate, heq]

/-- C8 witness: a concrete request with non-empty system instruction and
both overrides present. -/
theorem C8_witness :
    fullPrompt { prompt := "hi", systemPrompt := some "SYS" }
      = "SYS" ++ "\n\nUser: " ++ "hi" :=
  (C8_effective_params cfg0 { prompt := "hi", systemPrompt := some "SYS" }).1
    "SYS" rfl (by decide)

/-- C1 counterexample: `readySt` is exactly the engine's observable state
while a generation is in flight — the engine records no in-flight marker
(generation only resets `isCancelled` at acceptance, leaving everything else
as after a successful load).  In that state a second `generate` succeeds
instead of failing, and a second `generateStream` begins with `Start`, not
an `Error` event: the claimed immediate rejection with
`ConcurrentGenerationError` does not exist in the code. -/
theorem C1_counterexample :
    (generate readySt { prompt := "second" } (okOracle "hello") false 3).1
        = Except.ok
            { code := "hello", explanation := "Generated 1 lines of code in 3ms",
              tokens := 2, generationTime := 3, language := none }
      ∧ (generateStream readySt { prompt := "second" } (okOracle "hello") none 3).1.head?
        = some (StreamMessage.start "second") :=
  ⟨rfl, rfl⟩

/-- C1 amended: the engine keeps no in-flight-generation state at all: in
every state with a session present and the model not loading — in particular
the state during an in-flight generation — a second `generate` is accepted
and returns the model's result (never a concurrency rejection), a second
`generateStream` emits `Start` as its first event rather than an immediate
`Error`, and the second call resets the shared cancellation flag, which can
affect the in-flight generation; the only immediate rejections anywhere are
the not-initialized and still-loading errors. -/
theorem C1_no_concurrency_guard (st : EngineState) (req : GenerationRequest)
    (llm : LLMOracle) (cancelArg : Option Nat) (elapsed : Nat) (r : String)
    (h1 : st.session.isSome = true) (h2 : st.isLoading = false)
    (hok : llm (fullPrompt req) (effectiveOptions st.config req) = Except.ok r) :
    (∃ resp, (generate st req llm false elapsed).1 = Except.ok resp
      ∧ resp.code = extractCode r)
    ∧ (generateStream st req llm cancelArg elapsed).1.head?
      = some (StreamMessage.start req.prompt)
    ∧ (generate st req llm false elapsed).2.isCancelled = false := by
  have hgen := generate_ok st req llm false elapsed r h1 h2 hok
  have hev := generateStream_ok st req llm cancelArg elapsed r h1 h2 hok
  refine ⟨?_, ?_, ?_⟩
  · refine ⟨{ code := extractCode r
              explanation := "Generated " ++ toString ((extractCode r).data.count '\n' + 1)
                ++ " lines of code in " ++ toString elapsed ++ "ms"
              tokens := (r.length + 3) / 4
              generationTime := elapsed
              language := none }, ?_, rfl⟩
    rw [hgen]
  · rw [hev]
    rfl
  · rw [hgen]

/-- C1 witness: the ready state with a successful oracle. -/
theorem C1_witness :
    (∃ resp, (generate readySt { prompt := "w1" } (okOracle "hi") false 3).1
        = Except.ok resp ∧ resp.code = extractCode "hi")
    ∧ (generateStream readySt { prompt := "w1" } (okOracle "hi") none 3).1.head?
      = some (StreamMessage.start "w1")
    ∧ (generate readySt { prompt := "w1" } (okOracle "hi") false 3).2.isCancelled = false :=
  C1_no_concurrency_guard readySt { prompt := "w1" } (okOracle "hi") none 3 "hi" rfl rfl rfl

/-- C3 counterexample: when the model call fails while the cancellation flag
is set (the `catch` block yields nothing in that case), the accepted stream
ends after `Start` with no terminal event at all — neither `End` nor
`Error` — contradicting the claim that exactly one of them terminates every
sequence. -/
theorem C3_counterexample :
    (generateStream readySt { prompt := "p3" } (failOracle "boom") (some 0) 6).1
        = [StreamMessage.start "p3"]
      ∧ countErrors (generateStream readySt { prompt := "p3" } (failOracle "boom") (some 0) 6).1
        = 0 :=
  ⟨rfl, rfl⟩

/-- C3 amended: a call rejected up-front (no session, or model loading)
emits a single `Error` event and no `Start`.  An accepted call emits exactly
one `Start` first; if the model call fails, the `Start` is followed by
exactly one terminal `Error` — unless the cancellation flag is set when the
failure is caught, in which case nothing follows the `Start`; if the model
call succeeds, the `Start` is followed by the chunks in emission order and
then exactly one terminal event (the cancellation `Error` or the `End`),
with no event after the terminal one. -/
theorem C3_stream_shape (st : EngineState) (req : GenerationRequest)
    (llm : LLMOracle) (cancelArg : Option Nat) (elapsed : Nat) :
    (st.session = none →
      (generateStream st req llm cancelArg elapsed).1
        = [StreamMessage.error notInitializedMsg])
    ∧ (st.session.isSome = true → st.isLoading = true →
      (generateStream st req llm cancelArg elapsed).1
        = [StreamMessage.error stillLoadingMsg])
    ∧ (st.session.isSome = true → st.isLoading = false →
      ∀ e, llm (fullPrompt req) (effectiveOptions st.config req) = Except.error e →
        (cancelledAt cancelArg 0 = true →
          (generateStream st req llm cancelArg elapsed).1
            = [StreamMessage.start req.prompt])
        ∧ (cancelledAt cancelArg 0 = false →
          (generateStream st req llm cancelArg elapsed).1
            = [StreamMessage.start req.prompt,
               StreamMessage.error (generationFailMsg e)]))
    ∧ (st.session.isSome = true → st.isLoading = false →
      ∀ r, llm (fullPrompt req) (effectiveOptions st.config req) = Except.ok r →
        ∃ cs : List String,
          (generateStream st req llm cancelArg elapsed).1
              = StreamMessage.start req.prompt ::
                  (cs.map StreamMessage.chunk ++ [StreamMessage.error cancelledMsg])
            ∨ (generateStream st req llm cancelArg elapsed).1
              = StreamMessage.start req.prompt ::
                  (cs.map StreamMessage.chunk
                    ++ [StreamMessage.done ((r.length + 3) / 4) elapsed r.length])) := by
  refine ⟨?_, ?_, ?_, ?_⟩
  · intro h
    simp [generateStream, h]
  · intro h1 h2
    rcases hs : st.session with _ | s
    · rw [hs] at h1
      simp at h1
    · simp [generateStream, hs, h2]
  · intro h1 h2 e he
    rcases hs : st.session with _ | s
    · rw [hs] at h1
      simp at h1
    · constructor
      · intro hc
        simp [generateStream, hs, h2, he, hc]
      · intro hc
        simp [generateStream, hs, h2, he, hc]
  · intro h1 h2 r hr
    obtain ⟨cs, hcs⟩ :=
      chunkLoop_shape r.data.length r.data 0 cancelArg ((r.length + 3) / 4) elapsed r.length le_rfl
    have hev := generateStream_ok st req llm cancelArg elapsed r h1 h2 hr
    refine ⟨cs, ?_⟩
    rcases hcs with hcs | hcs
    · have hb : streamBody r.data cancelArg ((r.length + 3) / 4) elapsed r.length
          = cs.map StreamMessage.chunk ++ [StreamMessage.error cancelledMsg] := hcs
      exact Or.inl (by rw [hev, hb])
    · have hb : streamBody r.data cancelArg ((r.length + 3) / 4) elapsed r.length
          = cs.map StreamMessage.chunk
              ++ [StreamMessage.done ((r.length + 3) / 4) elapsed r.length] := hcs
      exact Or.inr (by rw [hev, hb])

/-- C3 witness: a rejected call on the unloaded engine emits exactly the one
not-initialized `Error` event (and no `Start`). -/
theorem C3_witness :
    (generateStream unloadedSt { prompt := "w3" } (okOracle "x") none 1).1
      = [StreamMessage.error notInitializedMsg] :=
  (C3_stream_shape unloadedSt { prompt := "w3" } (okOracle "x") none 1).1 rfl

theorem string_ext (a b : String) (h : a.data = b.data) : a = b := by
  cases a
  cases b
  exact congrArg String.mk (by simpa using h)

/-- C4 counterexample: when the model output contains a fenced code block,
`generate`'s `code` payload is the extracted inner block while the stream's
chunks concatenate to the raw output text, so the two differ for the same
request, oracle and state. -/
theorem C4_counterexample :
    concatChunks
        (generateStream readySt { prompt := "p4" } (okOracle "```js\nfoo\n```") none 4).1
        = "```js\nfoo\n```"
      ∧ (generate readySt { prompt := "p4" } (okOracle "```js\nfoo\n```") false 4).1.toOption.map
          GenerationResponse.code = some "foo"
      ∧ ("```js\nfoo\n```" : String) ≠ "foo" :=
  ⟨rfl, rfl, by decide⟩

/-- C4 amended: for an uncancelled successful `generateStream`, the chunk
payloads concatenate to the raw generated text, the `End` event is last and
its totalLength equals the sum of the chunk lengths (both equal the raw
text's length); `generate` on the same request, state and oracle returns as
its `code` payload the fence-extracted text — which coincides with the raw
text exactly when the text contains no fenced code block. -/
theorem C4_stream_vs_generate (st : EngineState) (req : GenerationRequest)
    (llm : LLMOracle) (elapsed : Nat) (r : String)
    (h1 : st.session.isSome = true) (h2 : st.isLoading = false)
    (hok : llm (fullPrompt req) (effectiveOptions st.config req) = Except.ok r) :
    concatChunks (generateStream st req llm none elapsed).1 = r
    ∧ sumChunkLens (generateStream st req llm none elapsed).1 = r.length
    ∧ (generateStream st req llm none elapsed).1.getLast?
      = some (StreamMessage.done ((r.length + 3) / 4) elapsed r.length)
    ∧ (∃ resp, (generate st req llm false elapsed).1 = Except.ok resp
        ∧ resp.code = extractCode r)
    ∧ (firstFence r.data = none → extractCode r = r) := by
  obtain ⟨cs, hcs, hcat⟩ :=
    chunkLoop_none r.data.length r.data 0 ((r.length + 3) / 4) elapsed r.length le_rfl
  have hb : streamBody r.data none ((r.length + 3) / 4) elapsed r.length
      = cs.map StreamMessage.chunk
          ++ [StreamMessage.done ((r.length + 3) / 4) elapsed r.length] := hcs
  have hev := generateStream_ok st req llm none elapsed r h1 h2 hok
  have hpay : chunkPayloads (generateStream st req llm none elapsed).1 = cs := by
    rw [hev, hb, chunkPayloads_start, chunkPayloads_chunks, chunkPayloads_done,
        chunkPayloads_nil, List.append_nil]
  refine ⟨?_, ?_, ?_, ?_, ?_⟩
  · rw [concatChunks, hpay]
    exact string_ext _ _ (by rw [hcat])
  · rw [sumChunkLens, hpay, sum_lengths_eq, hcat, string_length_data]
  · rw [hev, hb, ← List.cons_append]
    exact List.getLast?_concat _
  · have hgen := generate_ok st req llm false elapsed r h1 h2 hok
    refine ⟨{ code := extractCode r
              explanation := "Generated " ++ toString ((extractCode r).data.count '\n' + 1)
                ++ " lines of code in " ++ toString elapsed ++ "ms"
              tokens := (r.length + 3) / 4
              generationTime := elapsed
              language := none }, ?_, rfl⟩
    rw [hgen]
  · intro h
    simp [extractCode, h]

/-- A 60-character response, chunked by the stream into a 50-character chunk
and a 10-character chunk. -/
def resp60 : String := "012345678901234567890123456789012345678901234567890123456789"

/-- C4 witness: a 60-character fence-free response on the ready engine. -/
theorem C4_witness :
    concatChunks (generateStream readySt { prompt := "w4" } (okOracle resp60) none 9).1 = resp60
    ∧ sumChunkLens (generateStream readySt { prompt := "w4" } (okOracle resp60) none 9).1 = 60
    ∧ (generateStream readySt { prompt := "w4" } (okOracle resp60) none 9).1.getLast?
      = some (StreamMessage.done 15 9 60)
    ∧ (∃ resp, (generate readySt { prompt := "w4" } (okOracle resp60) false 9).1
        = Except.ok resp ∧ resp.code = extractCode resp60)
    ∧ (firstFence resp60.data = none → extractCode resp60 = resp60) :=
  C4_stream_vs_generate readySt { prompt := "w4" } (okOracle resp60) 9 resp60 rfl rfl rfl

/-- C5: in an accepted streaming generation whose model call succeeds, if
the cancellation flag first reads true at chunk checkpoint `c` and that
checkpoint is reached (chunk `c` was still pending), the stream is `Start`,
the first `c` chunks (their concatenation is the first `50·c` characters of
the output), then exactly ONE terminal `Error` carrying the cancellation
message, and nothing after it; if instead the flag only turns true after
the last checkpoint, the stream completes normally with all chunks and the
`End` event — the documented race.  This reads the claim's "checkpoint" as
the spec defines it: the check performed before emitting each chunk. -/
theorem C5_cancellation (st : EngineState) (req : GenerationRequest)
    (llm : LLMOracle) (elapsed : Nat) (r : String) (c : Nat)
    (h1 : st.session.isSome = true) (h2 : st.isLoading = false)
    (hok : llm (fullPrompt req) (effectiveOptions st.config req) = Except.ok r) :
    (50 * c < r.length →
      ∃ cs : List String,
        (generateStream st req llm (some c) elapsed).1
            = StreamMessage.start req.prompt ::
                (cs.map StreamMessage.chunk ++ [StreamMessage.error cancelledMsg])
          ∧ cs.length = c
          ∧ (strConcat cs).data = r.data.take (50 * c)
          ∧ countErrors (generateStream st req llm (some c) elapsed).1 = 1)
    ∧ (r.length ≤ 50 * c →
      ∃ cs : List String,
        (generateStream st req llm (some c) elapsed).1
            = StreamMessage.start req.prompt ::
                (cs.map StreamMessage.chunk
                  ++ [StreamMessage.done ((r.length + 3) / 4) elapsed r.length])
          ∧ (strConcat cs).data = r.data) := by
  have hev := generateStream_ok st req llm (some c) elapsed r h1 h2 hok
  constructor
  · intro hlt
    rw [string_length_data] at hlt
    obtain ⟨cs, hcs, hlen, hcat⟩ :=
      chunkLoop_cancelled r.data.length r.data 0 c ((r.length + 3) / 4) elapsed r.length
        le_rfl (Nat.zero_le c) (by simpa using hlt)
    have hb : streamBody r.data (some c) ((r.length + 3) / 4) elapsed r.length
        = cs.map StreamMessage.chunk ++ [StreamMessage.error cancelledMsg] := hcs
    refine ⟨cs, ?_, by simpa using hlen, by simpa using hcat, ?_⟩
    · rw [hev, hb]
    · rw [hev, hb, countErrors_start, countErrors_chunks, countErrors_error, countErrors_nil]
  · intro hge
    rw [string_length_data] at hge
    obtain ⟨cs, hcs, hcat⟩ :=
      chunkLoop_raced r.data.length r.data 0 c ((r.length + 3) / 4) elapsed r.length
        le_rfl (by simpa using hge)
    have hb : streamBody r.data (some c) ((r.length + 3) / 4) elapsed r.length
        = cs.map StreamMessage.chunk
            ++ [StreamMessage.done ((r.length + 3) / 4) elapsed r.length] := hcs
    exact ⟨cs, by rw [hev, hb], hcat⟩

/-- C5 witness: cancellation observed at checkpoint 0 of a two-character
response — only the terminal cancellation `Error` follows `Start`, observed
exactly once. -/
theorem C5_witness :
    ∃ cs : List String,
      (generateStream readySt { prompt := "w5" } (okOracle "hi") (some 0) 4).1
          = StreamMessage.start "w5" ::
              (cs.map StreamMessage.chunk ++ [StreamMessage.error cancelledMsg])
        ∧ cs.length = 0
        ∧ (strConcat cs).data = ("hi" : String).data.take (50 * 0)
        ∧ countErrors (generateStream readySt { prompt := "w5" } (okOracle "hi") (some 0) 4).1
          = 1 :=
  (C5_cancellation readySt { prompt := "w5" } (okOracle "hi") 4 "hi" 0 rfl rfl rfl).1 (by decide)

end BoltLlama
